import Mathlib

/-!
Verification development for the Polymetrics dashboard sources: a shallow
embedding of the market-data normalization, fetch wrappers, and view-state
handlers, with theorems settling the specification's claims about them.
-/

namespace Polymetrics

/-! ## JS value model for upstream numeric fields -/

/-- A JS value sitting in a string-typed numeric field of an upstream payload:
the field may be absent (`undefined`), `null`, or an arbitrary string. -/
inductive JsStr where
  | undefined
  | null
  | str (s : String)
  deriving Repr, DecidableEq

/-- Numeric value of a most-significant-first decimal digit list. -/
def digitsVal (cs : List Char) : Nat :=
  cs.foldl (fun n c => 10 * n + (c.toNat - 48)) 0

/-- Shallow model of JS `parseFloat` on the input shapes occurring in this
code base: skip leading whitespace, read an optional sign and a run of decimal
digits with an optional `.`-separated fraction; any input with neither integer
nor fraction digits parses to NaN, modelled as `none`.  Exponent suffixes are
not modelled (no call site produces them). -/
def parseFloat (s : String) : Option Rat :=
  let cs := s.data.dropWhile Char.isWhitespace
  let signed : Bool × List Char :=
    match cs with
    | '-' :: rest => (true, rest)
    | '+' :: rest => (false, rest)
    | _ => (false, cs)
  let intPart := signed.2.takeWhile Char.isDigit
  let rest := signed.2.dropWhile Char.isDigit
  let fracPart : List Char :=
    match rest with
    | '.' :: r => r.takeWhile Char.isDigit
    | _ => []
  if intPart.isEmpty && fracPart.isEmpty then none
  else
    let mag : Nat := digitsVal intPart * 10 ^ fracPart.length + digitsVal fracPart
    some (mkRat (if signed.1 then -(mag : Int) else (mag : Int)) (10 ^ fracPart.length))

/-- Comma-group a least-significant-first digit list in blocks of three. -/
def group3Rev : List Char → List Char
  | a :: b :: c :: d :: rest => a :: b :: c :: ',' :: group3Rev (d :: rest)
  | l => l

/-- Comma-group a most-significant-first digit list in blocks of three. -/
def group3 (ds : List Char) : List Char :=
  (group3Rev ds.reverse).reverse

/-- Round half-up: `⌊q + 1/2⌋` computed on the numerator and denominator;
matches Intl's rounding at every value occurring in this code base. -/
def ratRound (q : Rat) : Int :=
  (2 * q.num + (q.den : Int)).fdiv (2 * (q.den : Int))

/-- Shallow model of `Intl.NumberFormat('en-US', currency USD, 0 fraction
digits).format`: `NaN` (modelled as `none`) renders as `"$NaN"`, exactly as in
the browser; a finite value is rounded to an integer and comma-grouped. -/
def formatUSD : Option Rat → String
  | none => "$NaN"
  | some q =>
    let i := ratRound q
    let ds := group3 (Nat.toDigits 10 i.natAbs)
    if i < 0 then "-$" ++ String.mk ds else "$" ++ String.mk ds

/-- `formatCurrency` from MarketCard: `parseFloat` the string, then
currency-format the result, with no NaN guard. -/
def formatCurrency (value : String) : String :=
  formatUSD (parseFloat value)

/-- JS `market.volume || '0'` at the `formatCurrency` call sites: `undefined`,
`null` and the empty string are falsy and fall back to `"0"`. -/
def orZero : JsStr → String
  | .undefined => "0"
  | .null => "0"
  | .str s => if s = "" then "0" else s

/-- The volume / open-interest cell of the `formatCurrency`-based market cards:
`formatCurrency(market.volume || '0')`. -/
def renderVolumeCurrency (v : JsStr) : String :=
  formatCurrency (orZero v)

/-- `formatNumber` from the guarded MarketCard variant: falsy values and
strings that `parseFloat` to NaN render as `"N/A"`; anything else is
currency-formatted. -/
def formatNumber (v : JsStr) : String :=
  match v with
  | .undefined => "N/A"
  | .null => "N/A"
  | .str s =>
    if s = "" then "N/A"
    else
      match parseFloat s with
      | none => "N/A"
      | some q => formatUSD (some q)

/-- A volume / open-interest field value that is malformed (parses to NaN),
`null`, or missing. -/
def badNumeric (v : JsStr) : Prop :=
  v = .null ∨ v = .undefined ∨ ∃ s, v = .str s ∧ parseFloat s = none

/-! ## Market records and client-side filters -/

/-- A fetched market record, with the fields the embedded handlers touch:
string-encoded numerics (`volume`, `liquidity`), the active flag
(`is_active` / `isActive` across snapshots) and the status string. -/
structure Market where
  id : String
  question : String
  volume : JsStr
  liquidity : JsStr
  isActive : Bool
  status : String
  deriving Repr, DecidableEq

/-- JS `num > 0` where `num` may be NaN: NaN compares false. -/
def jsGtZero : Option Rat → Bool
  | none => false
  | some q => decide (0 < q)

/-- The active-market predicate of the search-snapshot `fetchMarkets`:
`market.isActive || (market.status === "unknown" &&
(parseFloat(market.volume || "0") > 0 || parseFloat(market.liquidity || "0") > 0))`. -/
def isActiveMarket (m : Market) : Bool :=
  m.isActive ||
    (m.status == "unknown" &&
      (jsGtZero (parseFloat (orZero m.volume)) || jsGtZero (parseFloat (orZero m.liquidity))))

/-- The inline `filteredMarkets` computation of the CLOB/Gamma snapshot:
`markets.filter(market => !showCurrentOnly || market.is_active)`. -/
def filteredMarkets (showCurrentOnly : Bool) (markets : List Market) : List Market :=
  markets.filter (fun m => !showCurrentOnly || m.isActive)

/-! ## Fetch outcomes and the two fetch wrappers -/

/-- The outcome of one HTTP fetch of a value of type `α`: either the promise
rejects (transport failure), or a response arrives with a status code and a
body whose JSON decoding may itself fail. -/
inductive FetchOutcome (α : Type) where
  | transportFailure
  | response (status : Nat) (body : Except String α)

/-- `Response.ok` of the Fetch API: status in 200–299. -/
def respOk (status : Nat) : Bool :=
  decide (200 ≤ status ∧ status < 300)

/-- A failure outcome in the sense of the spec: transport failure or a
non-2xx response. -/
def isFailure {α : Type} : FetchOutcome α → Bool
  | .transportFailure => true
  | .response status _ => !respOk status

/-- The try block of `getMarkets` (lib/api.ts): any transport failure, non-ok
status, or JSON decoding failure surfaces as a thrown error. -/
def getMarketsTry (f : FetchOutcome (List Market)) : Except String (List Market) :=
  match f with
  | .transportFailure => .error "TypeError: Failed to fetch"
  | .response status body =>
    if respOk status then
      match body with
      | .ok data => .ok data
      | .error e => .error e
    else .error ("Failed to fetch markets: " ++ toString status)

/-- `getMarkets`: the try block wrapped in the catch handler, which logs and
returns the empty list. -/
def getMarkets (f : FetchOutcome (List Market)) : Except String (List Market) :=
  match getMarketsTry f with
  | .ok data => .ok data
  | .error _ => .ok []

/-- `getMarketById`: a non-ok response throws — `'Market not found'` for a
404, a generic message otherwise — and the catch handler logs and rethrows,
so every failure propagates to the caller. -/
def getMarketById (f : FetchOutcome Market) : Except String Market :=
  match f with
  | .transportFailure => .error "TypeError: Failed to fetch"
  | .response status body =>
    if respOk status then
      match body with
      | .ok data => .ok data
      | .error e => .error e
    else if status = 404 then .error "Market not found"
    else .error ("Failed to fetch market: " ++ toString status)

/-! ## View state of the sports/search snapshot -/

/-- Shallow model of JS `String.prototype.trim`: strip leading and trailing
whitespace. -/
def jsTrim (s : String) : String :=
  String.mk (((s.data.dropWhile Char.isWhitespace).reverse.dropWhile Char.isWhitespace).reverse)

/-- An upstream request a handler can issue. -/
inductive Request where
  | marketsList
  | sportsList
  | marketById (id : String)
  | gammaList (currentOnly : Bool)
  | clobList (category : Option String) (sortKey : Option String) (dirDesc : Bool)
  deriving Repr, DecidableEq

/-- The component state of the sports/search App snapshot. -/
structure AppState where
  markets : List Market
  error : String
  loading : Bool
  showSportsOnly : Bool
  searchId : String
  searchError : String
  deriving Repr, DecidableEq

/-- Synchronous step of `toggleMarketView`: set `loading`, flip the toggle,
and start the fetch for the branch chosen by the pre-toggle flag (the closure
still sees the old `showSportsOnly`). -/
def toggleMarketView (st : AppState) : AppState × List Request :=
  ({ st with loading := true, showSportsOnly := !st.showSportsOnly },
   if !st.showSportsOnly then [Request.sportsList] else [Request.marketsList])

/-- Synchronous prefix of `handleSearch` up to its await: the blank-input
guard, then `setLoading(true)` and `setSearchError('')`, and the ID request. -/
def handleSearchEntry (st : AppState) : AppState × List Request :=
  if jsTrim st.searchId = "" then (st, [])
  else
    ({ st with loading := true, searchError := "" },
     [Request.marketById (jsTrim st.searchId)])

/-- `handleSearch` in full: the entry step, then the awaited `getMarketById`
outcome consumed by the try/catch/finally. -/
def handleSearch (st : AppState) (f : FetchOutcome Market) : AppState × List Request :=
  if jsTrim st.searchId = "" then (st, [])
  else
    let st1 := { st with loading := true, searchError := "" }
    match getMarketById f with
    | .ok m =>
      ({ st1 with markets := [m], error := "", loading := false },
       [Request.marketById (jsTrim st.searchId)])
    | .error e =>
      ({ st1 with searchError := e, markets := [], loading := false },
       [Request.marketById (jsTrim st.searchId)])

/-- The `fetchMarkets` caller of the sports/search snapshot, consuming the
settled result of `getMarkets()`; the `Except.error` branch is its catch
handler.  (The untyped `!Array.isArray` branch is unrepresentable in the
typed model.) -/
def fetchMarketsStep (st : AppState) (r : Except String (List Market)) : AppState :=
  match r with
  | .ok data =>
    if data.length > 0 then
      { st with markets := data, error := "", loading := false }
    else
      { st with
          error := "No active markets found. This could be due to rate limiting. Please try again in a few minutes.",
          loading := false }
  | .error _ =>
    { st with error := "Failed to fetch markets. Please try again later.", loading := false }

/-! ## View state of the CLOB/Gamma snapshot -/

/-- Which upstream shape the CLOB/Gamma snapshot queries. -/
inductive MarketSource where
  | clob
  | gamma
  deriving Repr, DecidableEq

/-- The component state of the CLOB/Gamma snapshot. -/
structure ClobGammaState where
  markets : List Market
  error : String
  loading : Bool
  showCurrentOnly : Bool
  marketSource : MarketSource
  category : Option String
  sortKey : Option String
  sortDirDesc : Bool
  deriving Repr, DecidableEq

/-- The request issued by this snapshot's `fetchMarkets` for the current
selector state: the Gamma endpoint with the `current_only` flag, or the CLOB
endpoint with category/sort parameters. -/
def effectRequest (st : ClobGammaState) : Request :=
  match st.marketSource with
  | .gamma => .gammaList st.showCurrentOnly
  | .clob => .clobList st.category st.sortKey st.sortDirDesc

/-- Clicking the current-only toggle: `setShowCurrentOnly(!showCurrentOnly)`;
the effect hook, whose dependency list contains `showCurrentOnly`, re-runs
`fetchMarkets()` on the new state and issues its request. -/
def toggleCurrentOnly (st : ClobGammaState) : ClobGammaState × List Request :=
  let st1 := { st with showCurrentOnly := !st.showCurrentOnly }
  (st1, [effectRequest st1])

/-- The market subset this snapshot renders, derived in place from the
in-memory collection by the `filteredMarkets` computation. -/
def displayedMarkets (st : ClobGammaState) : List Market :=
  filteredMarkets st.showCurrentOnly st.markets

/-! ## The server-side volume sort, modelled from the spec -/

/-- A market record as the canonical spec shape exposes it to the sort:
an identifier and a decimal volume. -/
structure SpecMarket where
  id : String
  volume : Rat
  deriving Repr, DecidableEq

/-- Ascending volume comparator. -/
def volLE (a b : SpecMarket) : Prop := a.volume ≤ b.volume

/-- Descending volume comparator. -/
def volGE (a b : SpecMarket) : Prop := b.volume ≤ a.volume

instance : DecidableRel volLE := fun a b => inferInstanceAs (Decidable (a.volume ≤ b.volume))

instance : DecidableRel volGE := fun a b => inferInstanceAs (Decidable (b.volume ≤ a.volume))

instance : IsTotal SpecMarket volLE := ⟨fun a b => le_total a.volume b.volume⟩

instance : IsTrans SpecMarket volLE := ⟨fun _ _ _ h1 h2 => le_trans h1 h2⟩

instance : IsTotal SpecMarket volGE := ⟨fun a b => le_total b.volume a.volume⟩

instance : IsTrans SpecMarket volGE := ⟨fun _ _ _ h1 h2 => le_trans h2 h1⟩

instance : IsAntisymm SpecMarket (fun a b => a.volume < b.volume) :=
  ⟨fun _ _ h1 h2 => absurd h2 (not_lt_of_gt h1)⟩

/-- Modelled from the spec: the sort implementation lives in the backend
proxy, which is not part of the provided sources — the client's `getMarkets`
only forwards `sort_by=volume` and `sort_direction` as query parameters.  The
spec prescribes a comparator keyed on `volume`, ascending or descending, with
ties broken by original fetch order (a stable sort); modelled as a stable
insertion sort on the volume key. -/
def sortByVolume (descending : Bool) (l : List SpecMarket) : List SpecMarket :=
  if descending then l.insertionSort volGE else l.insertionSort volLE

/-- Inserting an element satisfying `q` into a list, when every element the
insertion can skip over fails `q`, prepends it to the `q`-sublist. -/
theorem filter_orderedInsert_pos {α : Type} (r : α → α → Prop) [DecidableRel r]
    (q : α → Bool) (x : α) (hx : q x = true) (hr : ∀ y, ¬ r x y → q y = false) :
    ∀ s : List α, (s.orderedInsert r x).filter q = x :: s.filter q := by
  intro s
  induction s with
  | nil => simp [List.orderedInsert, hx]
  | cons b t ih =>
    by_cases hb : r x b
    · simp [List.orderedInsert, hb, List.filter_cons, hx]
    · simp [List.orderedInsert, if_neg hb, List.filter_cons, hr b hb, ih]

/-- Inserting an element failing `q` leaves the `q`-sublist unchanged. -/
theorem filter_orderedInsert_neg {α : Type} (r : α → α → Prop) [DecidableRel r]
    (q : α → Bool) (x : α) (hx : q x = false) :
    ∀ s : List α, (s.orderedInsert r x).filter q = s.filter q := by
  intro s
  induction s with
  | nil => simp [List.orderedInsert, hx]
  | cons b t ih =>
    by_cases hb : r x b
    · simp [List.orderedInsert, hb, List.filter_cons, hx]
    · simp only [List.orderedInsert, if_neg hb, List.filter_cons, ih]

/-- Stability of insertion sort, stated through sublist extraction: when
elements tied under the sort key are indistinguishable to `q` in the sense
that a `q`-element can never be inserted past another `q`-element, the
`q`-sublist of the output is the `q`-sublist of the input. -/
theorem filter_insertionSort {α : Type} (r : α → α → Prop) [DecidableRel r]
    (q : α → Bool) (h : ∀ x y, q x = true → ¬ r x y → q y = false) :
    ∀ l : List α, (l.insertionSort r).filter q = l.filter q := by
  intro l
  induction l with
  | nil => rfl
  | cons x xs ih =>
    by_cases hx : q x = true
    · rw [List.insertionSort, filter_orderedInsert_pos r q x hx (fun y => h x y hx), ih,
        List.filter_cons, if_pos hx]
    · have hx' : q x = false := by revert hx; cases q x <;> simp
      rw [List.insertionSort, filter_orderedInsert_neg r q x hx', ih,
        List.filter_cons, if_neg (by simp [hx'])]

/-! ## Helper lemmas -/

/-- An all-whitespace (in particular, empty) string trims to the empty string. -/
theorem jsTrim_of_whitespace (s : String) (h : ∀ c ∈ s.data, c.isWhitespace = true) :
    jsTrim s = "" := by
  have h1 : s.data.dropWhile Char.isWhitespace = [] :=
    List.dropWhile_eq_nil_iff.mpr h
  simp [jsTrim, h1]

/-- The generic lookup-failure message never collides with the 404 message. -/
theorem genericMsg_ne_notFound (s : String) :
    "Failed to fetch market: " ++ s ≠ "Market not found" := by
  intro h
  have h2 := congrArg String.length h
  rw [String.length_append] at h2
  have h3 : ("Failed to fetch market: ").length = 24 := rfl
  have h4 : ("Market not found").length = 16 := rfl
  rw [h3, h4] at h2
  omega

/-! ## Claims -/

/-- C2: for every failure outcome of a fetch (transport failure or non-2xx
response), the bulk-listing `getMarkets` returns the empty list to its
caller, while the single-item `getMarketById` propagates a thrown error. -/
theorem C2_failure_channels (f : FetchOutcome (List Market)) (g : FetchOutcome Market)
    (hf : isFailure f = true) (hg : isFailure g = true) :
    getMarkets f = Except.ok [] ∧ ∃ e, getMarketById g = Except.error e := by
  constructor
  · cases f with
    | transportFailure => rfl
    | response status body =>
      have hok : respOk status = false := by simpa [isFailure] using hf
      simp [getMarkets, getMarketsTry, hok]
  · cases g with
    | transportFailure => exact ⟨_, rfl⟩
    | response status body =>
      have hok : respOk status = false := by simpa [isFailure] using hg
      by_cases h4 : status = 404
      · subst h4
        exact ⟨"Market not found", by simp [getMarketById, hok]⟩
      · exact ⟨"Failed to fetch market: " ++ toString status, by
          simp [getMarketById, hok, h4]⟩

/-- Witness for C2 at a transport failure and a 500 response. -/
theorem C2_witness :
    getMarkets FetchOutcome.transportFailure = Except.ok [] ∧
    ∃ e, getMarketById (FetchOutcome.response 500 (Except.error "bad json")) = Except.error e :=
  C2_failure_channels _ _ rfl (by decide)

/-- C3: an HTTP 404 on ID lookup yields the distinct error `Market not
found`; every other non-2xx status yields a generic message that differs
from the 404 one. -/
theorem C3_notFound_distinct (status : Nat) (body : Except String Market)
    (h : respOk status = false) :
    (status = 404 →
      getMarketById (.response status body) = .error "Market not found") ∧
    (status ≠ 404 →
      ∃ e, getMarketById (.response status body) = .error e ∧ e ≠ "Market not found") := by
  constructor
  · intro h4
    subst h4
    simp [getMarketById, h]
  · intro h4
    refine ⟨"Failed to fetch market: " ++ toString status, ?_, genericMsg_ne_notFound _⟩
    simp [getMarketById, h, h4]

/-- Witness for C3 at a 404 and at a 500 response. -/
theorem C3_witness :
    getMarketById (FetchOutcome.response 404 (Except.error "b")) = Except.error "Market not found" ∧
    ∃ e, getMarketById (FetchOutcome.response 500 (Except.error "b")) = Except.error e ∧
      e ≠ "Market not found" :=
  ⟨(C3_notFound_distinct 404 (Except.error "b") (by decide)).1 rfl,
   (C3_notFound_distinct 500 (Except.error "b") (by decide)).2 (by decide)⟩

/-- C4: when the search-ID string is empty or whitespace-only, triggering the
search handler is a no-op — the state is unchanged and no request is issued. -/
theorem C4_blank_search_noop (st : AppState) (f : FetchOutcome Market)
    (h : ∀ c ∈ st.searchId.data, c.isWhitespace = true) :
    handleSearch st f = (st, []) ∧ handleSearchEntry st = (st, []) := by
  have ht := jsTrim_of_whitespace _ h
  constructor <;> simp [handleSearch, handleSearchEntry, ht]

/-- Witness for C4 at a whitespace-only search string. -/
theorem C4_witness :
    handleSearch
        { markets := [], error := "", loading := false, showSportsOnly := false,
          searchId := "  ", searchError := "" } FetchOutcome.transportFailure
      = ({ markets := [], error := "", loading := false, showSportsOnly := false,
            searchId := "  ", searchError := "" }, []) ∧
    handleSearchEntry
        { markets := [], error := "", loading := false, showSportsOnly := false,
          searchId := "  ", searchError := "" }
      = ({ markets := [], error := "", loading := false, showSportsOnly := false,
            searchId := "  ", searchError := "" }, []) :=
  C4_blank_search_noop _ _ (by decide)

/-- C5: the client-side active-only filter is idempotent, both in the
CLOB/Gamma snapshot's `filteredMarkets` form and in the search snapshot's
`isActiveMarket` form. -/
theorem C5_activeFilter_idempotent (l : List Market) (showCurrentOnly : Bool) :
    filteredMarkets showCurrentOnly (filteredMarkets showCurrentOnly l)
      = filteredMarkets showCurrentOnly l ∧
    (l.filter isActiveMarket).filter isActiveMarket = l.filter isActiveMarket := by
  constructor <;> simp [filteredMarkets, List.filter_filter]

/-- C1 counterexample: the `formatCurrency`-based card renders the malformed
volume string `"abc"` as `"$NaN"`, which is neither the formatted zero nor
`"N/A"` — NaN reaches the display layer. -/
theorem C1_counterexample :
    renderVolumeCurrency (JsStr.str "abc") = "$NaN" ∧
    "$NaN" ≠ "$0" ∧ "$NaN" ≠ "N/A" := by
  decide

/-- C1 (amended): for every malformed, null, or missing volume /
open-interest value, the guarded `formatNumber` renderer yields the default
`"N/A"`; the unguarded `formatCurrency` renderer yields the formatted zero
`"$0"` only for the null / missing cases (for malformed strings it renders
`"$NaN"`, see the counterexample). -/
theorem C1_defaults (v : JsStr) (h : badNumeric v) :
    formatNumber v = "N/A" ∧
    ((v = JsStr.null ∨ v = JsStr.undefined) → renderVolumeCurrency v = "$0") := by
  rcases h with h | h | ⟨s, rfl, hp⟩
  · subst h
    exact ⟨rfl, fun _ => by decide⟩
  · subst h
    exact ⟨rfl, fun _ => by decide⟩
  · constructor
    · by_cases hs : s = ""
      · simp [formatNumber, hs]
      · simp [formatNumber, hs, hp]
    · rintro (h | h) <;> simp at h

/-- Witness for C1 at the null volume value. -/
theorem C1_defaults_witness :
    formatNumber JsStr.null = "N/A" ∧
    ((JsStr.null = JsStr.null ∨ JsStr.null = JsStr.undefined) →
      renderVolumeCurrency JsStr.null = "$0") :=
  C1_defaults JsStr.null (Or.inl rfl)

/-- C6 counterexample: `toggleMarketView` enters the loading state while a
previously set error message is still present and does not clear it in that
step. -/
theorem C6_counterexample :
    (toggleMarketView
        { markets := [], error := "previous error", loading := false,
          showSportsOnly := false, searchId := "", searchError := "" }).1.loading = true ∧
    (toggleMarketView
        { markets := [], error := "previous error", loading := false,
          showSportsOnly := false, searchId := "", searchError := "" }).1.error
      = "previous error" ∧
    "previous error" ≠ "" := by
  decide

/-- C6 (amended): of the transitions that enter the loading state, the search
handler clears the search-error field in the same step but leaves the
page-level error unchanged, and the market-view toggle clears neither error
field — errors are only cleared or replaced when the subsequent fetch
completes. -/
theorem C6_loading_error_amended (st : AppState) (h : jsTrim st.searchId ≠ "") :
    (handleSearchEntry st).1.loading = true ∧
    (handleSearchEntry st).1.searchError = "" ∧
    (handleSearchEntry st).1.error = st.error ∧
    (toggleMarketView st).1.loading = true ∧
    (toggleMarketView st).1.error = st.error ∧
    (toggleMarketView st).1.searchError = st.searchError := by
  simp [handleSearchEntry, toggleMarketView, h]

/-- Witness for C6 (amended) at a non-blank search string. -/
theorem C6_amended_witness :
    (handleSearchEntry
        { markets := [], error := "old", loading := false,
          showSportsOnly := false, searchId := "123", searchError := "stale" }).1.loading = true ∧
    (handleSearchEntry
        { markets := [], error := "old", loading := false,
          showSportsOnly := false, searchId := "123", searchError := "stale" }).1.searchError = "" ∧
    (handleSearchEntry
        { markets := [], error := "old", loading := false,
          showSportsOnly := false, searchId := "123", searchError := "stale" }).1.error = "old" ∧
    (toggleMarketView
        { markets := [], error := "old", loading := false,
          showSportsOnly := false, searchId := "123", searchError := "stale" }).1.loading = true ∧
    (toggleMarketView
        { markets := [], error := "old", loading := false,
          showSportsOnly := false, searchId := "123", searchError := "stale" }).1.error = "old" ∧
    (toggleMarketView
        { markets := [], error := "old", loading := false,
          showSportsOnly := false, searchId := "123", searchError := "stale" }).1.searchError
      = "stale" :=
  C6_loading_error_amended _ (by decide)

/-- C7 counterexample: toggling the current-only filter is not request-free —
the effect hook re-runs the fetch with the new flag. -/
theorem C7_counterexample :
    (toggleCurrentOnly
        { markets := [], error := "", loading := false,
          showCurrentOnly := true, marketSource := MarketSource.gamma, category := none,
          sortKey := none, sortDirDesc := true }).2 = [Request.gammaList false] ∧
    [Request.gammaList false] ≠ ([] : List Request) := by
  decide

/-- C7 (amended): toggling the sports-only filter always issues a request (to
the sports endpoint or back to the full list); toggling the current-only
filter re-derives the displayed subset client-side from the already-fetched
markets, but in addition issues a new request carrying the new flag through
the effect hook. -/
theorem C7_toggle_refetch_amended (st : AppState) (st' : ClobGammaState) :
    (toggleMarketView st).2 =
      (if st.showSportsOnly then [Request.marketsList] else [Request.sportsList]) ∧
    (toggleCurrentOnly st').2 = [effectRequest (toggleCurrentOnly st').1] ∧
    (toggleCurrentOnly st').2 ≠ [] ∧
    displayedMarkets (toggleCurrentOnly st').1 =
      st'.markets.filter (fun m => !(!st'.showCurrentOnly) || m.isActive) := by
  refine ⟨?_, rfl, by simp [toggleCurrentOnly], rfl⟩
  cases h : st.showSportsOnly <;> simp [toggleMarketView, h]

/-- C9: `getMarkets` never throws — every fetch outcome is caught internally
and mapped to a list — so the caller's catch branch, which would set the
page-level fetch-failure message, is unreachable. -/
theorem C9_getMarkets_total (f : FetchOutcome (List Market)) (st : AppState) :
    (getMarkets f).isOk = true ∧
    (fetchMarketsStep st (getMarkets f)).error
      ≠ "Failed to fetch markets. Please try again later." := by
  obtain ⟨l, hl⟩ : ∃ l, getMarkets f = Except.ok l := by
    rw [getMarkets]
    cases getMarketsTry f with
    | ok data => exact ⟨data, rfl⟩
    | error e => exact ⟨[], rfl⟩
  rw [hl]
  refine ⟨rfl, ?_⟩
  by_cases h : l.length > 0 <;> simp [fetchMarketsStep, h]

/-- C10: whenever an ID search fails, the handler stores the error message in
the search-error field and replaces the displayed markets with the empty
list. -/
theorem C10_search_failure_clears (st : AppState) (f : FetchOutcome Market) (e : String)
    (h1 : jsTrim st.searchId ≠ "") (h2 : getMarketById f = Except.error e) :
    (handleSearch st f).1.markets = [] ∧ (handleSearch st f).1.searchError = e := by
  simp [handleSearch, h1, h2]

/-- Witness for C10 at a 404 lookup failure with a previously displayed market. -/
theorem C10_witness :
    (handleSearch
        { markets := [{ id := "1", question := "q", volume := JsStr.str "5", liquidity := JsStr.null, isActive := true, status := "active" }],
          error := "", loading := false, showSportsOnly := false,
          searchId := "123", searchError := "" }
        (FetchOutcome.response 404 (Except.error "b"))).1.markets = [] ∧
    (handleSearch
        { markets := [{ id := "1", question := "q", volume := JsStr.str "5", liquidity := JsStr.null, isActive := true, status := "active" }],
          error := "", loading := false, showSportsOnly := false,
          searchId := "123", searchError := "" }
        (FetchOutcome.response 404 (Except.error "b"))).1.searchError
      = "Market not found" :=
  C10_search_failure_clears _ _ _ (by decide) rfl

instance : IsAntisymm SpecMarket (fun a b => b.volume < a.volume) :=
  ⟨fun _ _ h1 h2 => absurd h2 (not_lt_of_gt h1)⟩

/-- C8: with pairwise-distinct volumes, the descending volume sort is exactly
the reverse of the ascending one; and for every volume value, the subsequence
of records carrying that volume is preserved in fetch order by both sort
directions (stability). -/
theorem C8_sort_reverse_stable (l : List SpecMarket) :
    (l.Pairwise (fun a b => a.volume ≠ b.volume) →
      sortByVolume true l = (sortByVolume false l).reverse) ∧
    ∀ v : Rat, ∀ descending : Bool,
      (sortByVolume descending l).filter (fun m => decide (m.volume = v))
        = l.filter (fun m => decide (m.volume = v)) := by
  constructor
  · intro hd
    have hs1 : List.Sorted volLE (l.insertionSort volLE) := List.sorted_insertionSort volLE l
    have hs2 : List.Sorted volGE (l.insertionSort volGE) := List.sorted_insertionSort volGE l
    have hp1 : (l.insertionSort volLE).Perm l := List.perm_insertionSort volLE l
    have hp2 : (l.insertionSort volGE).Perm l := List.perm_insertionSort volGE l
    have hd1 : (l.insertionSort volLE).Pairwise (fun a b => a.volume ≠ b.volume) :=
      (hp1.pairwise_iff (fun h => Ne.symm h)).mpr hd
    have hd2 : (l.insertionSort volGE).Pairwise (fun a b => a.volume ≠ b.volume) :=
      (hp2.pairwise_iff (fun h => Ne.symm h)).mpr hd
    have hstrict1 : (l.insertionSort volLE).Pairwise (fun a b => a.volume < b.volume) :=
      (hs1.and hd1).imp (fun h => lt_of_le_of_ne h.1 h.2)
    have hstrict2 : (l.insertionSort volGE).Pairwise (fun a b => b.volume < a.volume) :=
      (hs2.and hd2).imp (fun h => lt_of_le_of_ne h.1 (Ne.symm h.2))
    have hrev : ((l.insertionSort volLE).reverse).Pairwise (fun a b => b.volume < a.volume) :=
      List.pairwise_reverse.mpr hstrict1
    have hperm : (l.insertionSort volGE).Perm ((l.insertionSort volLE).reverse) :=
      hp2.trans ((((l.insertionSort volLE).reverse_perm).trans hp1).symm)
    have heq := List.eq_of_perm_of_sorted hperm hstrict2 hrev
    simpa [sortByVolume] using heq
  · intro v descending
    have hLE : ∀ x y : SpecMarket, decide (x.volume = v) = true → ¬ volLE x y →
        decide (y.volume = v) = false := by
      intro x y hx hxy
      have hx' : x.volume = v := of_decide_eq_true hx
      have hlt : y.volume < x.volume := not_le.mp hxy
      exact decide_eq_false (fun hEq => (ne_of_lt hlt) (hEq.trans hx'.symm))
    have hGE : ∀ x y : SpecMarket, decide (x.volume = v) = true → ¬ volGE x y →
        decide (y.volume = v) = false := by
      intro x y hx hxy
      have hx' : x.volume = v := of_decide_eq_true hx
      have hlt : x.volume < y.volume := not_le.mp hxy
      exact decide_eq_false (fun hEq => (ne_of_gt hlt) (hEq.trans hx'.symm))
    cases descending with
    | false =>
      simpa [sortByVolume] using
        filter_insertionSort volLE (fun m => decide (m.volume = v)) hLE l
    | true =>
      simpa [sortByVolume] using
        filter_insertionSort volGE (fun m => decide (m.volume = v)) hGE l

/-- Witness for C8 at a three-element list with pairwise-distinct volumes. -/
theorem C8_witness :
    sortByVolume true [⟨"a", 3⟩, ⟨"b", 1⟩, ⟨"c", 2⟩]
      = (sortByVolume false [⟨"a", 3⟩, ⟨"b", 1⟩, ⟨"c", 2⟩]).reverse ∧
    (sortByVolume true [⟨"a", 3⟩, ⟨"b", 1⟩, ⟨"c", 2⟩]).filter (fun m => decide (m.volume = 2))
      = ([⟨"a", 3⟩, ⟨"b", 1⟩, ⟨"c", 2⟩] : List SpecMarket).filter
          (fun m => decide (m.volume = 2)) :=
  ⟨(C8_sort_reverse_stable _).1 (by decide),
   (C8_sort_reverse_stable _).2 2 true⟩

end Polymetrics
